import Mathlib

set_option maxRecDepth 100000

/-!
  # ONDC authentication core — verification of the spec against the code

  Shallow embedding of the authentication subsystem of the repository:
  the signature verifier (signatureVerifier.js), the authorization-header
  parser and gate middleware (authMiddleware.js) and the key-pair manager
  (keyGenerator.js). Bytes are modelled as natural numbers below 256,
  JavaScript strings as Lean strings, buffers as byte lists, and every
  catch-and-return pattern as an explicit total function. External
  primitives from the Node standard library that the code calls
  (Buffer base64 codec, the blake2b512 hash, PEM key serialization and
  the key-format validation of crypto.verify) are modelled concretely
  from their documented behaviour, so that everything evaluates inside
  the kernel.
-/

namespace OndcAuth

/-- A byte string: a list of naturals, each intended below 256. -/
abbrev Bytes := List Nat

/-- JavaScript truthiness of an optional string: `undefined`/`null` and
the empty string are falsy, everything else truthy. -/
def jsTruthy : Option String → Bool
  | none => false
  | some s => s != ""

/-! ## Base64 (Node `Buffer` codec) -/

/-- The standard base64 alphabet, as used by `Buffer.toString("base64")`. -/
def b64Alphabet : List Char :=
  "ABCDEFGHIJKLMNOPQRSTUVWXYZabcdefghijklmnopqrstuvwxyz0123456789+/".toList

/-- The alphabet character for a 6-bit value. -/
def b64Char (n : Nat) : Char := b64Alphabet.getD n 'A'

/-- Canonical base64 encoding of a byte list: 3-byte groups become 4
characters, a trailing group of 2 or 1 bytes is padded with `=`. -/
def encode64Chars : Bytes → List Char
  | a :: b :: c :: rest =>
    b64Char (a / 4) :: b64Char (a % 4 * 16 + b / 16) ::
      b64Char (b % 16 * 4 + c / 64) :: b64Char (c % 64) :: encode64Chars rest
  | [a, b] => [b64Char (a / 4), b64Char (a % 4 * 16 + b / 16), b64Char (b % 16 * 4), '=']
  | [a] => [b64Char (a / 4), b64Char (a % 4 * 16), '=', '=']
  | [] => []

/-- `Buffer.toString("base64")`: canonical padded base64 of the bytes. -/
def encode64 (bs : Bytes) : String := String.mk (encode64Chars bs)

/-- Index of a character in the alphabet, counting from `i`. -/
def b64ValGo : List Char → Char → Nat → Option Nat
  | [], _, _ => none
  | a :: rest, c, i => if a = c then some i else b64ValGo rest c (i + 1)

/-- The 6-bit value of a base64 character, `none` for padding and for any
character outside the standard alphabet. -/
def b64Val (c : Char) : Option Nat := b64ValGo b64Alphabet c 0

/-- Repack a stream of 6-bit values into bytes; a leftover fragment short
of a full byte is dropped. -/
def decodeVals : List Nat → Bytes
  | v1 :: v2 :: v3 :: v4 :: rest =>
    (v1 * 4 + v2 / 16) :: (v2 % 16 * 16 + v3 / 4) :: (v3 % 4 * 64 + v4) :: decodeVals rest
  | [v1, v2, v3] => [v1 * 4 + v2 / 16, v2 % 16 * 16 + v3 / 4]
  | [v1, v2] => [v1 * 4 + v2 / 16]
  | _ => []

/-- `Buffer.from(s, "base64")`, the lenient Node decoder: characters
outside the alphabet (padding included) are skipped, leftover bits short
of a byte are dropped, and no input ever raises. (The url-safe alias
characters accepted by Node are not used anywhere in this development.) -/
def decode64 (s : String) : Bytes := decodeVals (s.toList.filterMap b64Val)

/-! ## BLAKE2b-512 (Node `crypto.createHash("blake2b512")`)

  A concrete, kernel-evaluable model of the unkeyed 64-byte-digest
  BLAKE2b of RFC 7693, which is the hash `generateBlake2bHash` asks the
  Node crypto provider for. 64-bit words are naturals reduced mod 2^64. -/

/-- 2 to the 64th: the word modulus. -/
def w64 : Nat := 2 ^ 64

/-- Addition mod 2^64. -/
def add64 (a b : Nat) : Nat := (a + b) % w64

/-- Bitwise xor (stays below 2^64 for reduced inputs). -/
def xor64 (a b : Nat) : Nat := a ^^^ b

/-- Right rotation of a 64-bit word. -/
def rotr64 (x n : Nat) : Nat := (x >>> n) ||| (x <<< (64 - n) % w64)

/-- The BLAKE2b initialization vector. -/
def blakeIV : List Nat :=
  [0x6a09e667f3bcc908, 0xbb67ae8584caa73b, 0x3c6ef372fe94f82b, 0xa54ff53a5f1d36f1,
   0x510e527fade682d1, 0x9b05688c2b3e6c1f, 0x1f83d9abfb41bd6b, 0x5be0cd19137e2179]

/-- The BLAKE2 message schedule (rounds 10 and 11 reuse rows 0 and 1). -/
def blakeSigma : List (List Nat) :=
  [[0, 1, 2, 3, 4, 5, 6, 7, 8, 9, 10, 11, 12, 13, 14, 15],
   [14, 10, 4, 8, 9, 15, 13, 6, 1, 12, 0, 2, 11, 7, 5, 3],
   [11, 8, 12, 0, 5, 2, 15, 13, 10, 14, 3, 6, 7, 1, 9, 4],
   [7, 9, 3, 1, 13, 12, 11, 14, 2, 6, 5, 10, 4, 0, 15, 8],
   [9, 0, 5, 7, 2, 4, 10, 15, 14, 1, 11, 12, 6, 8, 3, 13],
   [2, 12, 6, 10, 0, 11, 8, 3, 4, 13, 7, 5, 15, 14, 1, 9],
   [12, 5, 1, 15, 14, 13, 4, 10, 0, 7, 6, 3, 9, 2, 8, 11],
   [13, 11, 7, 14, 12, 1, 3, 9, 5, 0, 15, 4, 8, 6, 2, 10],
   [6, 15, 14, 9, 11, 3, 0, 8, 12, 2, 13, 7, 1, 4, 10, 5],
   [10, 2, 8, 4, 7, 6, 1, 5, 15, 11, 9, 14, 3, 12, 13, 0]]

/-- State access with default 0. -/
def vget (v : List Nat) (i : Nat) : Nat := v.getD i 0

/-- The BLAKE2b G mixing function on state positions `a b c d` with
message words `x y`. -/
def gMix (v : List Nat) (a b c d x y : Nat) : List Nat :=
  let va := add64 (add64 (vget v a) (vget v b)) x
  let vd := rotr64 (xor64 (vget v d) va) 32
  let vc := add64 (vget v c) vd
  let vb := rotr64 (xor64 (vget v b) vc) 24
  let va2 := add64 (add64 va vb) y
  let vd2 := rotr64 (xor64 vd va2) 16
  let vc2 := add64 vc vd2
  let vb2 := rotr64 (xor64 vb vc2) 63
  (((v.set a va2).set b vb2).set c vc2).set d vd2

/-- One BLAKE2b round: four column and four diagonal G applications,
message words selected by the schedule row `s`. -/
def blakeRound (m v s : List Nat) : List Nat :=
  let mi := fun i => vget m (vget s i)
  let v1 := gMix v 0 4 8 12 (mi 0) (mi 1)
  let v2 := gMix v1 1 5 9 13 (mi 2) (mi 3)
  let v3 := gMix v2 2 6 10 14 (mi 4) (mi 5)
  let v4 := gMix v3 3 7 11 15 (mi 6) (mi 7)
  let v5 := gMix v4 0 5 10 15 (mi 8) (mi 9)
  let v6 := gMix v5 1 6 11 12 (mi 10) (mi 11)
  let v7 := gMix v6 2 7 8 13 (mi 12) (mi 13)
  gMix v7 3 4 9 14 (mi 14) (mi 15)

/-- The BLAKE2b compression function: `h` the 8-word chain value, `m` the
16-word message block, `t` the byte counter, `lastBlock` the finalization
flag. -/
def blakeCompress (h m : List Nat) (t : Nat) (lastBlock : Bool) : List Nat :=
  let v0 := h ++ blakeIV
  let v1 := v0.set 12 (xor64 (vget v0 12) (t % w64))
  let v2 := v1.set 13 (xor64 (vget v1 13) (t / w64))
  let v3 := if lastBlock then v2.set 14 (xor64 (vget v2 14) (w64 - 1)) else v2
  let vf := (List.range 12).foldl (fun v r => blakeRound m v (blakeSigma.getD (r % 10) [])) v3
  (List.range 8).map (fun i => xor64 (xor64 (vget h i) (vget vf i)) (vget vf (i + 8)))

/-- Group 8 bytes little-endian into a 64-bit word, across the block. -/
def leWords : Bytes → List Nat
  | b0 :: b1 :: b2 :: b3 :: b4 :: b5 :: b6 :: b7 :: rest =>
    (b0 + b1 * 0x100 + b2 * 0x10000 + b3 * 0x1000000 + b4 * 0x100000000 +
     b5 * 0x10000000000 + b6 * 0x1000000000000 + b7 * 0x100000000000000) :: leWords rest
  | _ => []

/-- The 8 little-endian bytes of a 64-bit word. -/
def wordBytes (w : Nat) : Bytes :=
  [w % 256, w / 0x100 % 256, w / 0x10000 % 256, w / 0x1000000 % 256,
   w / 0x100000000 % 256, w / 0x10000000000 % 256, w / 0x1000000000000 % 256,
   w / 0x100000000000000 % 256]

/-- Zero-pad a final partial block to 128 bytes. -/
def padBlock (b : Bytes) : Bytes := b ++ List.replicate (128 - b.length) 0

/-- Split a nonempty message into 128-byte blocks, the last holding 1 to
128 bytes; `fuel` (instantiated with the length) keeps the recursion
structural. -/
def chunksGo : Nat → Bytes → List Bytes
  | 0, l => [l]
  | fuel + 1, l => if l.length ≤ 128 then [l] else l.take 128 :: chunksGo fuel (l.drop 128)

/-- Absorb the blocks: intermediate blocks count 128 bytes each into the
counter, the final block counts the true message length. -/
def blakeGo : List Nat → List Bytes → Nat → List Nat
  | h, [], _ => h
  | h, [b], done => blakeCompress h (leWords (padBlock b)) (done + b.length) true
  | h, b :: b2 :: rest, done =>
    blakeGo (blakeCompress h (leWords (padBlock b)) (done + 128) false) (b2 :: rest) (done + 128)

/-- BLAKE2b-512 of a byte string: unkeyed, 64-byte digest (parameter
word 0x01010040 folded into the first chain word), digest emitted as the
little-endian bytes of the final chain value. -/
def blake2b512 (msg : Bytes) : Bytes :=
  let h0 := xor64 (vget blakeIV 0) 0x01010040 :: blakeIV.drop 1
  let blocks := if msg.isEmpty then [[]] else chunksGo msg.length msg
  List.flatten ((blakeGo h0 blocks 0).map wordBytes)

/-! ## SignatureVerifier (signatureVerifier.js) -/

/-- Key-input formats of the Node crypto key parser. -/
inductive KeyFormat
  | raw
  | pem
  | der
  | jwk

/-- Modelled from Node `crypto.verify` for a key given as bytes plus a
format option: the key parser accepts only the formats pem, der and jwk,
so any other value — the source passes the string "raw" — raises
ERR_INVALID_ARG_VALUE before any cryptographic work happens. The
mathematical Ed25519 check that would run on an accepted format is kept
abstract as the parameter `ed` (public key, message, signature). -/
def cryptoVerify (ed : Bytes → Bytes → Bytes → Bool) (fmt : KeyFormat)
    (key msg sg : Bytes) : Except String Bool :=
  match fmt with
  | .raw => .error "ERR_INVALID_ARG_VALUE: key.format"
  | _ => .ok (ed key msg sg)

/-- `verifyEd25519Signature`: calls `crypto.verify` with the key given in
format "raw"; the surrounding catch converts any raised error to `false`. -/
def verifyEd25519Signature (ed : Bytes → Bytes → Bytes → Bool)
    (message sg publicKey : Bytes) : Bool :=
  match cryptoVerify ed .raw publicKey message sg with
  | .ok b => b
  | .error _ => false

/-- `generateBlake2bHash`: blake2b512 over the payload bytes. -/
def generateBlake2bHash (data : Bytes) : Bytes := blake2b512 data

/-- The guard `providedDigest && providedDigest !== calculatedDigest` of
the source: a present, truthy declared digest that differs from the
computed digest **as a string**. -/
def digestMismatch (providedDigest : Option String) (calculatedDigest : String) : Bool :=
  match providedDigest with
  | none => false
  | some d => d != "" && d != calculatedDigest

/-- `verifySignature(body, signature, providedDigest, publicKey)`:
compute the blake2b digest of the raw body, base64 it, early-return
`false` when a truthy declared digest differs from it as a string,
otherwise base64-decode the public key and the signature and run the
Ed25519 check; every raised error is caught and reported as `false`. -/
def verifySignature (ed : Bytes → Bytes → Bytes → Bool) (body : Bytes)
    (signature : String) (providedDigest : Option String) (publicKey : String) : Bool :=
  let hash := generateBlake2bHash body
  let calculatedDigest := encode64 hash
  if digestMismatch providedDigest calculatedDigest then false
  else
    let publicKeyBuffer := decode64 publicKey
    let signatureBuffer := decode64 signature
    verifyEd25519Signature ed hash signatureBuffer publicKeyBuffer

/-- Which syntactic branch of `verifySignature` produced the result: the
digest-mismatch early return, a clean cryptographic accept or reject, or
a caught internal error. The boolean the caller sees identifies only
`verified`; the other three all collapse to `false`. -/
inductive VerifyOutcome
  | digestMismatch
  | verified
  | cryptoRejected
  | internalError
deriving DecidableEq

/-- `verifySignature` instrumented with the branch taken (the branch is
otherwise observable only in the log line each branch writes). -/
def verifySignatureR (ed : Bytes → Bytes → Bytes → Bool) (body : Bytes)
    (signature : String) (providedDigest : Option String) (publicKey : String) : VerifyOutcome :=
  let hash := generateBlake2bHash body
  let calculatedDigest := encode64 hash
  if digestMismatch providedDigest calculatedDigest then .digestMismatch
  else
    match cryptoVerify ed .raw (decode64 publicKey) hash (decode64 signature) with
    | .ok true => .verified
    | .ok false => .cryptoRejected
    | .error _ => .internalError

/-- The same pipeline with the catch blocks removed: a raised error
escapes as `.error` instead of being converted to `false`. -/
def verifySignatureE (ed : Bytes → Bytes → Bytes → Bool) (body : Bytes)
    (signature : String) (providedDigest : Option String) (publicKey : String) : Except String Bool :=
  let hash := generateBlake2bHash body
  let calculatedDigest := encode64 hash
  if digestMismatch providedDigest calculatedDigest then .ok false
  else cryptoVerify ed .raw (decode64 publicKey) hash (decode64 signature)

/-! ## AuthHeaderParser (parseAuthHeader in authMiddleware.js) -/

/-- `[a-zA-Z0-9_]`, the attribute-name character class of the regex. -/
def isWordChar (c : Char) : Bool :=
  ('a' ≤ c && c ≤ 'z') || ('A' ≤ c && c ≤ 'Z') || ('0' ≤ c && c ≤ '9') || c == '_'

/-- Does `p` occur at the head of `s`? -/
def listStarts : List Char → List Char → Bool
  | [], _ => true
  | _ :: _, [] => false
  | p :: ps, c :: cs => p == c && listStarts ps cs

/-- The global scan of the regex `([a-zA-Z0-9_]+)=(?:"([^"]*)")`: at each
position try a maximal word-character run followed by `="`, take the
value up to the next quote, continue after the closing quote; with no
match at a position the scan advances one character. When a candidate
value has no closing quote the remainder holds no quote at all, so no
further match exists and the scan ends. `fuel` (instantiated with the
length) keeps the recursion structural; every step consumes at least one
character. -/
def scanAttrsGo : Nat → List Char → List (String × String)
  | 0, _ => []
  | fuel + 1, cs =>
    match cs with
    | [] => []
    | _ :: rest =>
      let run := cs.takeWhile isWordChar
      if run.isEmpty then scanAttrsGo fuel rest
      else
        match cs.drop run.length with
        | '=' :: '"' :: afterQuote =>
          let v := afterQuote.takeWhile (fun ch => ch != '"')
          if v.length < afterQuote.length then
            (String.mk run, String.mk v) :: scanAttrsGo fuel (afterQuote.drop (v.length + 1))
          else []
        | _ => scanAttrsGo fuel rest

/-- All `key="value"` attributes of the part after the scheme tag. -/
def scanAttrs (cs : List Char) : List (String × String) := scanAttrsGo cs.length cs

/-- The components object: assignment in scan order, so for a duplicated
attribute name the last occurrence wins. -/
def lastAttr (attrs : List (String × String)) (k : String) : Option String :=
  attrs.foldl (fun acc p => if p.1 == k then some p.2 else acc) none

/-- `keyId.split("|")` (single-character separator, JavaScript
semantics: the empty string splits to one empty segment). -/
def splitPipe : List Char → List (List Char)
  | [] => [[]]
  | c :: rest =>
    let r := splitPipe rest
    if c == '|' then [] :: r
    else
      match r with
      | h :: t => (c :: h) :: t
      | [] => [[c]]

/-- The literal scheme tag `"Signature "` (ten characters). -/
def signatureTag : String := "Signature "

/-- The literal internal-route tag `"/internal/"`. -/
def internalRoute : String := "/internal/"

/-- The structured result of a successful parse. -/
structure AuthComponents where
  subscriberId : String
  ukId : String
  algorithm : String
  signature : String
  digest : Option String
  created : Option String
  expires : Option String
deriving DecidableEq

/-- `parseAuthHeader`: require the literal prefix `"Signature "`, scan
the remainder for attributes, require truthy `keyId`, `signature` and
`algorithm` (a present-but-empty value is falsy in JavaScript and fails
this check), require `keyId` to split on `|` into exactly three
segments, and pass `digest` through only when truthy. Total by
construction: the catch-all of the source maps any internal failure to
`null`, and nothing in this embedding can fail. -/
def parseAuthHeader (authHeader : String) : Option AuthComponents :=
  let cs := authHeader.toList
  if ¬ listStarts signatureTag.toList cs then none
  else
    let signaturePart := cs.drop 10
    let attrs := scanAttrs signaturePart
    let keyId := lastAttr attrs "keyId"
    let signatureAttr := lastAttr attrs "signature"
    let algorithmAttr := lastAttr attrs "algorithm"
    if ¬ (jsTruthy keyId && jsTruthy signatureAttr && jsTruthy algorithmAttr) then none
    else
      match keyId, signatureAttr, algorithmAttr with
      | some k, some sgv, some alg =>
        let keyIdParts := splitPipe k.toList
        if keyIdParts.length ≠ 3 then none
        else
          some
            { subscriberId := String.mk (keyIdParts.getD 0 [])
              ukId := String.mk (keyIdParts.getD 1 [])
              algorithm := alg
              signature := sgv
              digest := if jsTruthy (lastAttr attrs "digest") then lastAttr attrs "digest" else none
              created := lastAttr attrs "created"
              expires := lastAttr attrs "expires" }
      | _, _, _ => none

/-! ## AuthenticationGate (verifyAuthentication in authMiddleware.js) -/

/-- The registry record as the gate consumes it: only the signing public
key (base64 string) is read. -/
structure Subscriber where
  signing_public_key : String
deriving DecidableEq

/-- A JavaScript error value as the gate's catch distinguishes them: an
`ApiError` (with its own status and message) or any other thrown error. -/
inductive JsError
  | api (status : Nat) (message : String)
  | generic (message : String)

/-- The collaborator `registryService.lookupSubscriber`: resolves to a
subscriber, to an absent value, or rejects with a thrown error. -/
abbrev ResolverFn := String → String → Except JsError (Option Subscriber)

/-- The parts of an Express request the middleware reads. -/
structure GateRequest where
  path : String
  authorization : Option String
  rawBody : Bytes

/-- The gate decision: bypass (`next()` before any check), allow
(`next()` with the subscriber attached to the request), or a NACK
response with a status, a stringified status code and a message. -/
inductive GateOutcome
  | bypass
  | allow (sub : Subscriber)
  | reject (status : Nat) (code : String) (message : String)
deriving DecidableEq

/-- `verifyAuthentication`: skip `/health` and `/internal/` paths; a
falsy authorization header, a failed parse, an absent subscriber and a
failed signature check each throw an `ApiError(…, 401)` that the catch
renders as a NACK with `String(status)` as the code; a thrown `ApiError`
from the resolver is rendered with its own status, any other thrown
error as the generic 401 "Authentication failed". -/
def verifyAuthentication (ed : Bytes → Bytes → Bytes → Bool) (req : GateRequest)
    (resolver : ResolverFn) : GateOutcome :=
  if req.path == "/health" || listStarts internalRoute.toList req.path.toList then .bypass
  else
    match req.authorization with
    | none => .reject 401 "401" "Missing authorization header"
    | some authHeader =>
      if authHeader == "" then .reject 401 "401" "Missing authorization header"
      else
        match parseAuthHeader authHeader with
        | none => .reject 401 "401" "Invalid authorization header format"
        | some c =>
          match resolver c.subscriberId c.ukId with
          | .error (.api st m) => .reject st (Nat.repr st) m
          | .error (.generic _) => .reject 401 "401" "Authentication failed"
          | .ok none => .reject 401 "401" "Subscriber not found"
          | .ok (some sub) =>
            if verifySignature ed req.rawBody c.signature c.digest sub.signing_public_key
            then .allow sub
            else .reject 401 "401" "Signature verification failed"

/-! ## KeyPairManager (keyGenerator.js) -/

/-- The DER envelope of an Ed25519 public key in SubjectPublicKeyInfo
form: 12 header bytes followed by the 32 raw key bytes. -/
def spkiHeaderEd25519 : Bytes :=
  [0x30, 0x2a, 0x30, 0x05, 0x06, 0x03, 0x2b, 0x65, 0x70, 0x03, 0x21, 0x00]

/-- The DER envelope of an Ed25519 private key in PKCS8 form: 16 header
bytes followed by the 32 seed bytes. -/
def pkcs8HeaderEd25519 : Bytes :=
  [0x30, 0x2e, 0x02, 0x01, 0x00, 0x30, 0x05, 0x06, 0x03, 0x2b, 0x65, 0x70,
   0x04, 0x22, 0x04, 0x20]

/-- Split base64 content into PEM lines of 64 characters. -/
def chunkLines : Nat → List Char → List (List Char)
  | 0, l => [l]
  | fuel + 1, l => if l.length ≤ 64 then [l] else l.take 64 :: chunkLines fuel (l.drop 64)

/-- Modelled from the Node crypto provider PEM output: the base64 of the
DER bytes wrapped in 64-column lines between BEGIN and END marker lines,
with a trailing newline. -/
def pemWrap (label : String) (der : Bytes) : String :=
  let content := encode64Chars der
  let lines := chunkLines content.length content
  String.mk (("-----BEGIN " ++ label ++ "-----").toList ++ '\n' ::
    List.flatten (lines.map (fun l => l ++ ['\n'])) ++
    ("-----END " ++ label ++ "-----").toList ++ ['\n'])

/-- The minimal-match search of `.*?-----`: the number of non-newline
characters before the first run of five dashes, `none` when a newline or
the end intervenes. -/
def findCloseDashes : Nat → List Char → Option Nat
  | 0, _ => none
  | fuel + 1, cs =>
    if listStarts "-----".toList cs then some 0
    else
      match cs with
      | [] => none
      | c :: rest => if c == '\n' then none else (findCloseDashes fuel rest).map (· + 1)

/-- Length of a match of `kw` + `.*?` + `-----` at the head of `cs`
(the regexes `/-----BEGIN.*?-----/` and `/-----END.*?-----/` of the
source, with `kw` the literal part). -/
def matchMarkerLen (kw cs : List Char) : Option Nat :=
  if listStarts kw cs then
    (findCloseDashes (cs.drop kw.length).length.succ (cs.drop kw.length)).map
      (fun k => kw.length + k + 5)
  else none

/-- `String.replace(regex, "")` for the marker regexes: delete the
leftmost match, leave the string unchanged when there is none. -/
def replaceMarker (kw : List Char) : Nat → List Char → List Char
  | 0, cs => cs
  | fuel + 1, cs =>
    match matchMarkerLen kw cs with
    | some n => cs.drop n
    | none =>
      match cs with
      | [] => []
      | c :: rest => c :: replaceMarker kw fuel rest

/-- `extractRawKeyFromPem`: delete the first `-----BEGIN.*?-----` match
and the first `-----END.*?-----` match, drop every newline, and
base64-decode what remains. Note that this strips only the PEM armor:
the DER envelope inside survives into the "raw" bytes. -/
def extractRawKeyFromPem (pemKey : String) : Bytes :=
  let cs := pemKey.toList
  let s1 := replaceMarker "-----BEGIN".toList cs.length.succ cs
  let s2 := replaceMarker "-----END".toList s1.length.succ s1
  let s3 := s2.filter (fun c => c != '\n')
  decode64 (String.mk s3)

/-- A generated key pair, both halves base64 strings. -/
structure KeyPairB64 where
  publicKey : String
  privateKey : String
deriving DecidableEq

/-- `generateSigningKeyPair`: the provider draws fresh Ed25519 key
material (the parameters `pkRaw` and `skSeed`, 32 bytes each, stand for
that randomness) and serializes it as SPKI/PKCS8 DER in PEM armor; the
source then strips the armor with `extractRawKeyFromPem` and
base64-encodes the result. -/
def generateSigningKeyPair (pkRaw skSeed : Bytes) : KeyPairB64 :=
  let publicKey := pemWrap "PUBLIC KEY" (spkiHeaderEd25519 ++ pkRaw)
  let privateKey := pemWrap "PRIVATE KEY" (pkcs8HeaderEd25519 ++ skSeed)
  { publicKey := encode64 (extractRawKeyFromPem publicKey)
    privateKey := encode64 (extractRawKeyFromPem privateKey) }

/-- The four key environment variables plus `KEYS_DIR`; `none` stands
for an unset variable. -/
structure KeyEnv where
  signingPublicKey : Option String
  signingPrivateKey : Option String
  encryptionPublicKey : Option String
  encryptionPrivateKey : Option String
  keysDir : Option String

/-- What `loadKeys` returns: any subset of the four keys. -/
structure LoadedKeys where
  signingPublicKey : Option String
  signingPrivateKey : Option String
  encryptionPublicKey : Option String
  encryptionPrivateKey : Option String
deriving DecidableEq

/-- Whitespace in the sense of `String.prototype.trim`. -/
def isJsSpace (c : Char) : Bool :=
  c == ' ' || c == '\t' || c == '\n' || c == '\r' || c == '\x0b' || c == '\x0c'

/-- `.trim()`: strip whitespace from both ends. -/
def trimJs (s : String) : String :=
  String.mk (((s.toList.dropWhile isJsSpace).reverse.dropWhile isJsSpace).reverse)

/-- `process.env.KEYS_DIR || "./keys"`: the keys directory, with the
default when the variable is falsy. -/
def keysDirOf (env : KeyEnv) : String :=
  match env.keysDir with
  | some d => if d != "" then d else "./keys"
  | none => "./keys"

/-- One file-fallback line of `loadKeys`: overwrite with the trimmed
file contents when the file exists, keep the previous entry otherwise
(`fs` maps a path to file contents, `none` meaning the file does not
exist; `existsSync` then `readFileSync` then `.trim()`). -/
def fileOrKeep (fs : String → Option String) (p : String) (old : Option String) : Option String :=
  match fs p with
  | some content => some (trimJs content)
  | none => old

/-- `loadKeys`: start from the four environment variables; only when the
signing private key variable is falsy, enter the file-fallback block,
which for each of the four artifacts overwrites the entry with the
trimmed file contents whenever the file exists under the keys directory
(path joining modelled as slash concatenation). Partial availability is
returned as-is; the catch around the block is dead in this model because
the filesystem map is total. -/
def loadKeys (env : KeyEnv) (fs : String → Option String) : LoadedKeys :=
  let keys : LoadedKeys :=
    { signingPublicKey := env.signingPublicKey
      signingPrivateKey := env.signingPrivateKey
      encryptionPublicKey := env.encryptionPublicKey
      encryptionPrivateKey := env.encryptionPrivateKey }
  if jsTruthy env.signingPrivateKey then keys
  else
    let keysDir := keysDirOf env
    let rd := fun (nm : String) (old : Option String) => fileOrKeep fs (keysDir ++ "/" ++ nm) old
    { signingPrivateKey := rd "signing_private_key.b64" keys.signingPrivateKey
      signingPublicKey := rd "signing_public_key.b64" keys.signingPublicKey
      encryptionPrivateKey := rd "encryption_private_key.b64" keys.encryptionPrivateKey
      encryptionPublicKey := rd "encryption_public_key.b64" keys.encryptionPublicKey }

/-- Test fixture: a filesystem holding exactly one file, the signing
public key file under the default directory. -/
def fsFixture : String → Option String :=
  fun p => if p = "./keys/signing_public_key.b64" then some "PK" else none

/-! ## Theorems

  Sanity anchors first: the hash and codec models reproduce externally
  published values, so the later concrete evaluations mean what they
  say. Then one theorem per claim (with the claim id in the doc
  comment), plus counterexamples and witnesses where needed. -/

/-- Sanity anchor: the blake2b512 and base64 models reproduce the
published BLAKE2b-512 digest of the empty message, in its base64 form. -/
theorem blake2b512_empty_anchor :
    encode64 (blake2b512 []) =
      "eGoC90IBWQPGxv2FJVLScpEvR0DhWEdhiobiF/cfVBnSXhAxr+5YUxOJZESTTrBLkDpoWxRIt1XVb3Aa/pvizg==" := by
  decide

/-- Sanity anchor: the published BLAKE2b-512 digest of "abc". -/
theorem blake2b512_abc_anchor :
    blake2b512 [0x61, 0x62, 0x63] =
      [0xba, 0x80, 0xa5, 0x3f, 0x98, 0x1c, 0x4d, 0x0d, 0x6a, 0x27, 0x97, 0xb6, 0x9f, 0x12,
       0xf6, 0xe9, 0x4c, 0x21, 0x2f, 0x14, 0x68, 0x5a, 0xc4, 0xb7, 0x4b, 0x12, 0xbb, 0x6f,
       0xdb, 0xff, 0xa2, 0xd1, 0x7d, 0x87, 0xc5, 0x39, 0x2a, 0xab, 0x79, 0x2d, 0xc2, 0x52,
       0xd5, 0xde, 0x45, 0x33, 0xcc, 0x95, 0x18, 0xd3, 0x8a, 0xa8, 0xdb, 0xf1, 0x92, 0x5a,
       0xb9, 0x23, 0x86, 0xed, 0xd4, 0x00, 0x99, 0x23] := by
  decide

/-- C1: the claim asserts round-trip validity, but on this code no
verification ever succeeds — for every behaviour `ed` of the underlying
Ed25519 mathematics, every generated key pair, every payload and every
signature string, `verifySignature` returns `false`: the public key
reaches `crypto.verify` as DER-wrapped bytes under the invalid key
format "raw", the call raises, and the catch reports `false`. -/
theorem c1_roundtrip_never_verifies (ed : Bytes → Bytes → Bytes → Bool)
    (pkRaw skSeed body : Bytes) (sg : String) :
    verifySignature ed body sg none (generateSigningKeyPair pkRaw skSeed).publicKey = false := rfl

/-- C2: the claim asserts the generated public key decodes to exactly 32
bytes; in fact `extractRawKeyFromPem` strips only the PEM armor, so the
base64 output decodes to the 44-byte SPKI DER — the 12-byte envelope is
still in front of the 32 key bytes (evaluated here at the all-zero key
pair). -/
theorem c2_public_key_decodes_to_der_not_raw :
    (decode64 (generateSigningKeyPair (List.replicate 32 0) (List.replicate 32 0)).publicKey).length
        = 44 ∧
    (decode64 (generateSigningKeyPair (List.replicate 32 0) (List.replicate 32 0)).publicKey).take 12
        = spkiHeaderEd25519 := by
  exact ⟨by decide, by decide⟩

/-- C5: `verifySignature` is total with a boolean result, and it equals
the uncaught pipeline run under the handler that maps every raised error
to `false` — fail-closed, never a crash and never an unknown state. -/
theorem c5_verify_signature_total_fail_closed (ed : Bytes → Bytes → Bytes → Bool)
    (body : Bytes) (sg : String) (pd : Option String) (pk : String) :
    verifySignature ed body sg pd pk =
      (match verifySignatureE ed body sg pd pk with
       | .ok b => b
       | .error _ => false) := by
  cases h : digestMismatch pd (encode64 (generateBlake2bHash body)) <;>
    simp [verifySignature, verifySignatureE, verifyEd25519Signature, cryptoVerify, h]

/-- Helper: a truthy declared digest different from the computed string
triggers the mismatch guard. -/
theorem digestMismatch_of_ne {d c : String} (h1 : d ≠ "") (h2 : d ≠ c) :
    digestMismatch (some d) c = true := by
  simp [digestMismatch]
  exact ⟨h1, h2⟩

/-- C3 (amended): on a truthy declared digest that differs as a string
from the computed one, `verifySignature` takes the digest-mismatch
branch — distinct only internally (the branch writes the "Digest
mismatch" log line) — and returns the plain boolean `false`, the same
value every other failure returns. -/
theorem c3_digest_mismatch_is_plain_false (ed : Bytes → Bytes → Bytes → Bool)
    (body : Bytes) (sg d pk : String)
    (h1 : d ≠ "") (h2 : d ≠ encode64 (generateBlake2bHash body)) :
    verifySignatureR ed body sg (some d) pk = .digestMismatch ∧
    verifySignature ed body sg (some d) pk = false := by
  have hm := digestMismatch_of_ne h1 h2
  exact ⟨by simp [verifySignatureR, hm], by simp [verifySignature, hm]⟩

/-- C3 witness: concrete digest-mismatch run. -/
theorem c3_digest_mismatch_is_plain_false_witness :
    verifySignatureR (fun _ _ _ => true) [] "AA" (some "x") "AA" = .digestMismatch ∧
    verifySignature (fun _ _ _ => true) [] "AA" (some "x") "AA" = false :=
  c3_digest_mismatch_is_plain_false (fun _ _ _ => true) [] "AA" "x" "AA"
    (by decide) (by decide)

/-- C3 counterexample to the claim as stated: a gate run that fails only
the digest cross-check and a gate run with no declared digest that fails
only the cryptographic step produce the identical rejection — status
401, code "401", message "Signature verification failed" — even though
the instrumented verifier shows the two runs took different branches. The
digest-mismatch cause is not a distinct outcome anywhere the caller can
see. -/
theorem c3_counterexample_gate_rejection_identical :
    verifyAuthentication (fun _ _ _ => true)
        { path := "/x",
          authorization :=
            some "Signature keyId=\"s|u|e\",algorithm=\"e\",signature=\"AA\",digest=\"x\"",
          rawBody := [] }
        (fun _ _ => .ok (some { signing_public_key := "AA" })) =
      .reject 401 "401" "Signature verification failed" ∧
    verifyAuthentication (fun _ _ _ => true)
        { path := "/x",
          authorization := some "Signature keyId=\"s|u|e\",algorithm=\"e\",signature=\"AA\"",
          rawBody := [] }
        (fun _ _ => .ok (some { signing_public_key := "AA" })) =
      .reject 401 "401" "Signature verification failed" ∧
    verifySignatureR (fun _ _ _ => true) [] "AA" (some "x") "AA" = .digestMismatch ∧
    verifySignatureR (fun _ _ _ => true) [] "AA" none "AA" = .internalError := by
  refine ⟨?_, ?_, ?_, ?_⟩ <;> decide

/-- C4 counterexample to the claim as stated: a declared digest that is
a different base64 spelling of exactly the computed digest bytes (the
string below decodes byte-for-byte to `blake2b512 []`, as the first
conjunct proves) is still reported as a digest mismatch, because the
code compares the base64 strings, never the decoded bytes. -/
theorem c4_counterexample_noncanonical_spelling :
    decode64 "eGoC90IBWQPGxv2FJVLScpEvR0DhWEdhiobiF/cfVBnSXhAxr+5YUxOJZESTTrBLkDpoWxRIt1XVb3Aa/pvizh=="
        = generateBlake2bHash [] ∧
    "eGoC90IBWQPGxv2FJVLScpEvR0DhWEdhiobiF/cfVBnSXhAxr+5YUxOJZESTTrBLkDpoWxRIt1XVb3Aa/pvizh=="
        ≠ encode64 (generateBlake2bHash []) ∧
    verifySignatureR (fun _ _ _ => true) [] "AA"
        (some "eGoC90IBWQPGxv2FJVLScpEvR0DhWEdhiobiF/cfVBnSXhAxr+5YUxOJZESTTrBLkDpoWxRIt1XVb3Aa/pvizh==")
        "AA" = .digestMismatch := by
  refine ⟨?_, ?_, ?_⟩ <;> decide

/-- C4 (amended): the digest cross-check is string equality on the
base64 text: a declared digest string-equal to the computed one is never
reported as a digest mismatch (while, per the counterexample, a
non-canonical spelling of the same bytes is). -/
theorem c4_string_equal_digest_not_mismatch (ed : Bytes → Bytes → Bytes → Bool)
    (body : Bytes) (sg pk d : String)
    (hd : d = encode64 (generateBlake2bHash body)) :
    verifySignatureR ed body sg (some d) pk ≠ .digestMismatch := by
  subst hd
  simp [verifySignatureR, digestMismatch, cryptoVerify]

/-- C4 witness: the canonical computed digest of the empty body passes
the cross-check. -/
theorem c4_string_equal_digest_not_mismatch_witness :
    verifySignatureR (fun _ _ _ => false) [] "AA"
        (some (encode64 (generateBlake2bHash []))) "AA" ≠ .digestMismatch :=
  c4_string_equal_digest_not_mismatch (fun _ _ _ => false) [] "AA" "AA"
    (encode64 (generateBlake2bHash [])) rfl

/-- Helper: a header without the scheme tag parses to `none`. -/
theorem parse_none_of_no_tag (s : String)
    (h : listStarts signatureTag.toList s.toList = false) :
    parseAuthHeader s = none := by
  have h2 : listStarts signatureTag.data s.data = false := h
  simp [parseAuthHeader, h2]

/-- Helper: a falsy required attribute (absent, or present with an empty
value) makes the parse `none`. -/
theorem parse_none_of_falsy_required (s : String)
    (h : jsTruthy (lastAttr (scanAttrs (s.toList.drop 10)) "keyId") = false ∨
         jsTruthy (lastAttr (scanAttrs (s.toList.drop 10)) "signature") = false ∨
         jsTruthy (lastAttr (scanAttrs (s.toList.drop 10)) "algorithm") = false) :
    parseAuthHeader s = none := by
  rcases h with h | h | h
  · have h2 : jsTruthy (lastAttr (scanAttrs (List.drop 10 s.data)) "keyId") = false := h
    simp [parseAuthHeader, h2]
  · have h2 : jsTruthy (lastAttr (scanAttrs (List.drop 10 s.data)) "signature") = false := h
    simp [parseAuthHeader, h2]
  · have h2 : jsTruthy (lastAttr (scanAttrs (List.drop 10 s.data)) "algorithm") = false := h
    simp [parseAuthHeader, h2]

/-- Helper: a `keyId` value that does not split on the pipe into exactly
three segments makes the parse `none`. -/
theorem parse_none_of_bad_split (s : String) (k : String)
    (hk : lastAttr (scanAttrs (s.toList.drop 10)) "keyId" = some k)
    (hlen : (splitPipe k.toList).length ≠ 3) :
    parseAuthHeader s = none := by
  cases hsig : lastAttr (scanAttrs (s.toList.drop 10)) "signature" with
  | none => exact parse_none_of_falsy_required s (Or.inr (Or.inl (by rw [hsig]; rfl)))
  | some sgv =>
    cases halg : lastAttr (scanAttrs (s.toList.drop 10)) "algorithm" with
    | none => exact parse_none_of_falsy_required s (Or.inr (Or.inr (by rw [halg]; rfl)))
    | some alg =>
      have hk2 : lastAttr (scanAttrs (List.drop 10 s.data)) "keyId" = some k := hk
      have hsig2 : lastAttr (scanAttrs (List.drop 10 s.data)) "signature" = some sgv := hsig
      have halg2 : lastAttr (scanAttrs (List.drop 10 s.data)) "algorithm" = some alg := halg
      have hlen2 : (splitPipe k.data).length ≠ 3 := hlen
      simp [parseAuthHeader, hk2, hsig2, halg2, hlen2]

/-- C6: `parseAuthHeader` maps every malformed shape to the absent
result: a missing `"Signature "` tag, a falsy required attribute
(`keyId`, `signature`, `algorithm`), or a `keyId` that does not split on
`|` into exactly three segments. (The parser is total by construction —
the embedding returns an `Option` on every input — which is the
never-throws half of the claim.) -/
theorem c6_parse_auth_header_malformed (s : String)
    (h : listStarts signatureTag.toList s.toList = false ∨
         jsTruthy (lastAttr (scanAttrs (s.toList.drop 10)) "keyId") = false ∨
         jsTruthy (lastAttr (scanAttrs (s.toList.drop 10)) "signature") = false ∨
         jsTruthy (lastAttr (scanAttrs (s.toList.drop 10)) "algorithm") = false ∨
         (∃ k, lastAttr (scanAttrs (s.toList.drop 10)) "keyId" = some k ∧
               (splitPipe k.toList).length ≠ 3)) :
    parseAuthHeader s = none := by
  rcases h with h | h | h | h | ⟨k, hk, hlen⟩
  · exact parse_none_of_no_tag s h
  · exact parse_none_of_falsy_required s (Or.inl h)
  · exact parse_none_of_falsy_required s (Or.inr (Or.inl h))
  · exact parse_none_of_falsy_required s (Or.inr (Or.inr h))
  · exact parse_none_of_bad_split s k hk hlen

/-- C6 witness: a two-segment `keyId` is malformed. -/
theorem c6_parse_auth_header_malformed_witness :
    parseAuthHeader "Signature keyId=\"a|b\",algorithm=\"x\",signature=\"s\"" = none :=
  c6_parse_auth_header_malformed _
    (Or.inr (Or.inr (Or.inr (Or.inr ⟨"a|b", by decide, by decide⟩))))

/-- C10: a required attribute present with an empty quoted value is
treated exactly like an absent attribute — the JavaScript truthiness
check fails on the empty string — and the parse is `none`. -/
theorem c10_empty_required_attr_malformed (s : String)
    (h : lastAttr (scanAttrs (s.toList.drop 10)) "keyId" = some "" ∨
         lastAttr (scanAttrs (s.toList.drop 10)) "signature" = some "" ∨
         lastAttr (scanAttrs (s.toList.drop 10)) "algorithm" = some "") :
    parseAuthHeader s = none := by
  rcases h with h | h | h
  · exact parse_none_of_falsy_required s (Or.inl (by rw [h]; rfl))
  · exact parse_none_of_falsy_required s (Or.inr (Or.inl (by rw [h]; rfl)))
  · exact parse_none_of_falsy_required s (Or.inr (Or.inr (by rw [h]; rfl)))

/-- C10 witness: an empty `signature` attribute is malformed. -/
theorem c10_empty_required_attr_malformed_witness :
    parseAuthHeader "Signature keyId=\"a|b|c\",algorithm=\"ed25519\",signature=\"\"" = none :=
  c10_empty_required_attr_malformed _ (Or.inr (Or.inl (by decide)))

/-- Helper: when the bypass condition is false, the gate never returns
the bypass outcome, whatever the header, resolver and verifier do. -/
theorem gate_no_bypass_of_cond_false (ed : Bytes → Bytes → Bytes → Bool)
    (req : GateRequest) (resolver : ResolverFn)
    (hb : (req.path == "/health" || listStarts internalRoute.toList req.path.toList) = false) :
    verifyAuthentication ed req resolver ≠ .bypass := by
  simp only [verifyAuthentication]
  rw [hb]
  simp only [Bool.false_eq_true, if_false]
  cases req.authorization with
  | none => simp
  | some hdr =>
    by_cases hh : hdr = ""
    · simp [hh]
    · simp only [show (hdr == "") = false by simp [hh], Bool.false_eq_true, if_false]
      cases parseAuthHeader hdr with
      | none => simp
      | some c =>
        simp only []
        cases resolver c.subscriberId c.ukId with
        | error e => cases e <;> simp
        | ok o =>
          cases o with
          | none => simp
          | some sub =>
            cases hv : verifySignature ed req.rawBody c.signature c.digest sub.signing_public_key <;>
              simp [hv]

/-- C7: the gate bypasses verification exactly when the path equals
`/health` or starts with `/internal/`; on every other path a request
whose authorization header is absent (or empty, which JavaScript treats
as absent) is rejected with status 401, code "401" and the
missing-header message — in particular it is never let through. -/
theorem c7_gate_bypass_exact_and_missing_header (ed : Bytes → Bytes → Bytes → Bool)
    (req : GateRequest) (resolver : ResolverFn) :
    (verifyAuthentication ed req resolver = .bypass ↔
      (req.path = "/health" ∨ listStarts internalRoute.toList req.path.toList = true)) ∧
    (¬ (req.path = "/health" ∨ listStarts internalRoute.toList req.path.toList = true) →
      (req.authorization = none ∨ req.authorization = some "") →
      verifyAuthentication ed req resolver = .reject 401 "401" "Missing authorization header") := by
  have hiff : ((req.path == "/health" || listStarts internalRoute.toList req.path.toList) = true) ↔
      (req.path = "/health" ∨ listStarts internalRoute.toList req.path.toList = true) := by
    simp
  cases hb : (req.path == "/health" || listStarts internalRoute.toList req.path.toList) with
  | true =>
    have hP := hiff.mp hb
    refine ⟨⟨fun _ => hP, fun _ => ?_⟩, fun hn _ => absurd hP hn⟩
    simp only [verifyAuthentication]
    rw [hb]
    simp
  | false =>
    have hnP : ¬ (req.path = "/health" ∨ listStarts internalRoute.toList req.path.toList = true) :=
      fun hp => by rw [← hiff, hb] at hp; exact Bool.false_ne_true hp
    refine ⟨⟨fun hbp => absurd hbp (gate_no_bypass_of_cond_false ed req resolver hb),
            fun hP => absurd hP hnP⟩, fun _ hauth => ?_⟩
    simp only [verifyAuthentication]
    rw [hb]
    rcases hauth with h | h <;> rw [h] <;> simp

/-- C7 witness: a plain path with no header is rejected as missing. -/
theorem c7_gate_bypass_exact_and_missing_header_witness :
    verifyAuthentication (fun _ _ _ => false)
        { path := "/x", authorization := none, rawBody := [] } (fun _ _ => .ok none) =
      .reject 401 "401" "Missing authorization header" :=
  (c7_gate_bypass_exact_and_missing_header (fun _ _ _ => false)
      { path := "/x", authorization := none, rawBody := [] } (fun _ _ => .ok none)).2
    (by decide) (Or.inl rfl)

/-- C8 counterexample to the claim as stated: with a well-formed header,
an absent resolver result is rejected with the message "Subscriber not
found", but a resolver that throws a plain error is rejected with the
different generic message "Authentication failed" — so a throw is not
treated "the same way" as an absent result — and a resolver that throws
an `ApiError` carrying status 500 is re-surfaced as a 500 response, a
5xx the claim says can never happen. -/
theorem c8_counterexample_throw_differs_from_not_found :
    verifyAuthentication (fun _ _ _ => false)
        { path := "/x",
          authorization := some "Signature keyId=\"s|u|e\",algorithm=\"e\",signature=\"AA\"",
          rawBody := [] }
        (fun _ _ => .ok none) = .reject 401 "401" "Subscriber not found" ∧
    verifyAuthentication (fun _ _ _ => false)
        { path := "/x",
          authorization := some "Signature keyId=\"s|u|e\",algorithm=\"e\",signature=\"AA\"",
          rawBody := [] }
        (fun _ _ => .error (.generic "boom")) = .reject 401 "401" "Authentication failed" ∧
    verifyAuthentication (fun _ _ _ => false)
        { path := "/x",
          authorization := some "Signature keyId=\"s|u|e\",algorithm=\"e\",signature=\"AA\"",
          rawBody := [] }
        (fun _ _ => .error (.api 500 "boom")) = .reject 500 "500" "boom" ∧
    GateOutcome.reject 401 "401" "Authentication failed" ≠
      GateOutcome.reject 401 "401" "Subscriber not found" := by
  refine ⟨?_, ?_, ?_, ?_⟩ <;> decide

/-- C8 (amended): on a non-bypass path with a parseable header, an
absent resolver result is rejected 401 as "Subscriber not found", and a
plain (non-`ApiError`) thrown resolver error is caught and rejected
fail-closed with 401 and the generic "Authentication failed" message —
not mapped to the SubscriberNotFound rejection (and a thrown `ApiError`
would be re-surfaced with its own status, per the counterexample). -/
theorem c8_resolver_absent_and_throw (ed : Bytes → Bytes → Bytes → Bool)
    (req : GateRequest) (hdr : String) (c : AuthComponents) (msg : String)
    (hb : (req.path == "/health" || listStarts internalRoute.toList req.path.toList) = false)
    (hauth : req.authorization = some hdr) (hne : hdr ≠ "")
    (hparse : parseAuthHeader hdr = some c) :
    verifyAuthentication ed req (fun _ _ => .ok none) =
      .reject 401 "401" "Subscriber not found" ∧
    verifyAuthentication ed req (fun _ _ => .error (.generic msg)) =
      .reject 401 "401" "Authentication failed" := by
  have hne2 : (hdr == "") = false := by simp [hne]
  constructor <;>
    · simp only [verifyAuthentication]
      rw [hb, hauth]
      simp [hne2, hparse]

/-- C8 witness: concrete non-bypass request with a parseable header. -/
theorem c8_resolver_absent_and_throw_witness :
    verifyAuthentication (fun _ _ _ => false)
        { path := "/x",
          authorization := some "Signature keyId=\"s|u|e\",algorithm=\"e\",signature=\"AA\"",
          rawBody := [] }
        (fun _ _ => .ok none) = .reject 401 "401" "Subscriber not found" ∧
    verifyAuthentication (fun _ _ _ => false)
        { path := "/x",
          authorization := some "Signature keyId=\"s|u|e\",algorithm=\"e\",signature=\"AA\"",
          rawBody := [] }
        (fun _ _ => .error (.generic "boom")) = .reject 401 "401" "Authentication failed" :=
  c8_resolver_absent_and_throw (fun _ _ _ => false)
    { path := "/x",
      authorization := some "Signature keyId=\"s|u|e\",algorithm=\"e\",signature=\"AA\"",
      rawBody := [] }
    "Signature keyId=\"s|u|e\",algorithm=\"e\",signature=\"AA\""
    { subscriberId := "s", ukId := "u", algorithm := "e", signature := "AA",
      digest := none, created := none, expires := none }
    "boom" (by decide) rfl (by decide) (by decide)

/-- C9 counterexample to the claim as stated: the four artifacts are not
loaded independently with environment precedence. With the signing
private key set in the environment, the signing public key file is never
read even though it exists (first two conjuncts); with the signing
private key unset, an environment-provided signing public key is
overwritten by the file (third conjunct). -/
theorem c9_counterexample_env_file_precedence :
    (loadKeys ⟨none, some "SK", none, none, none⟩ fsFixture).signingPublicKey = none ∧
    fsFixture "./keys/signing_public_key.b64" = some "PK" ∧
    (loadKeys ⟨some "ENV", none, none, none, none⟩ fsFixture).signingPublicKey = some "PK" := by
  refine ⟨?_, ?_, ?_⟩ <;> decide

/-- C9 (amended): `loadKeys` is gated on the signing private key
variable alone: when that variable is truthy all four keys come from the
environment (files untouched); when it is falsy, each of the four
artifacts independently takes the trimmed file contents when the file
exists — even over a set environment variable — and keeps the
environment value otherwise. Whatever subset results is returned without
failure. -/
theorem c9_load_keys_gated_on_signing_private (env : KeyEnv) (fs : String → Option String) :
    (jsTruthy env.signingPrivateKey = true →
      loadKeys env fs =
        { signingPublicKey := env.signingPublicKey
          signingPrivateKey := env.signingPrivateKey
          encryptionPublicKey := env.encryptionPublicKey
          encryptionPrivateKey := env.encryptionPrivateKey }) ∧
    (jsTruthy env.signingPrivateKey = false →
      loadKeys env fs =
        { signingPublicKey :=
            fileOrKeep fs (keysDirOf env ++ "/" ++ "signing_public_key.b64") env.signingPublicKey
          signingPrivateKey :=
            fileOrKeep fs (keysDirOf env ++ "/" ++ "signing_private_key.b64") env.signingPrivateKey
          encryptionPublicKey :=
            fileOrKeep fs (keysDirOf env ++ "/" ++ "encryption_public_key.b64") env.encryptionPublicKey
          encryptionPrivateKey :=
            fileOrKeep fs (keysDirOf env ++ "/" ++ "encryption_private_key.b64") env.encryptionPrivateKey }) := by
  constructor <;> intro h <;> simp [loadKeys, h]

/-- C9 witness: with the signing private key variable set, all four come
from the environment; with it unset, the file overrides the set signing
public key variable. -/
theorem c9_load_keys_gated_on_signing_private_witness :
    loadKeys ⟨some "E1", some "E2", some "E3", some "E4", none⟩ fsFixture =
      ⟨some "E1", some "E2", some "E3", some "E4"⟩ ∧
    (loadKeys ⟨some "ENV", none, none, none, none⟩ fsFixture).signingPublicKey = some "PK" := by
  constructor
  · exact (c9_load_keys_gated_on_signing_private
      ⟨some "E1", some "E2", some "E3", some "E4", none⟩ fsFixture).1 (by decide)
  · have h := (c9_load_keys_gated_on_signing_private
      ⟨some "ENV", none, none, none, none⟩ fsFixture).2 (by decide)
    rw [h]
    decide

end OndcAuth
